import Mathlib

set_option maxHeartbeats 1000000

namespace ValveEXE

/-!
Shallow embedding of the ValveEXE repository (`valveexe/logfile.py`,
`valveexe/exe.py`, `valveexe/utils.py`).  File contents are modelled as
`List Char` (the log file is a plain append-only text file consumed by byte
offset), stateful Python objects as explicit state records, and fallible
Python code as `Except PyError`.
-/

/-- Python exception kinds that the embedded code can raise. -/
inductive PyError where
  | typeError
  | attributeError
deriving DecidableEq

/-! Embedding of `LogFile` (valveexe/logfile.py lines 7-37). -/

/-- State of a `LogFile`: the accumulated `logs` buffer and the `_bookmark`
byte offset, exactly the mutable attributes set in `LogFile.__init__`. -/
structure LogFileState where
  logs : List Char
  bookmark : Nat
deriving DecidableEq

/-- Embedding of `LogFile.ingest` (logfile.py lines 23-37): open the file,
`seek` to the stored bookmark, read all remaining lines (the concatenation of
`readlines()` is the remaining suffix of the file), append each line to
`logs` and to the returned accumulator, and set the bookmark to `file.tell()`
(the end-of-file offset) on each loop iteration; when no line is read the
loop body never runs and the bookmark is left unchanged.  Returns the newly
read text together with the updated state. -/
def ingest (file : List Char) (st : LogFileState) : List Char × LogFileState :=
  let newText := file.drop st.bookmark
  (newText,
   { logs := st.logs ++ newText,
     bookmark := if newText = [] then st.bookmark else file.length })

/-- One step of the writer/reader interleaving of claim C1: either the
external process appends `s` to the watched file, or the client calls
`LogFile.ingest()`. -/
inductive TailEvent where
  | append (s : List Char)
  | ingestCall
deriving DecidableEq

/-- Result of running a sequence of `TailEvent`s: the final file contents,
the final `LogFileState`, and the concatenation of all strings returned by
the `ingest()` calls, in order. -/
structure TailRun where
  file : List Char
  st : LogFileState
  outs : List Char
deriving DecidableEq

/-- Run a sequence of appends and `ingest()` calls against a file and a
`LogFileState`. -/
def runEvents : List TailEvent → List Char → LogFileState → TailRun
  | [], f, st => ⟨f, st, []⟩
  | .append s :: es, f, st => runEvents es (f ++ s) st
  | .ingestCall :: es, f, st =>
      let p := ingest f st
      let r := runEvents es f p.2
      ⟨r.file, r.st, p.1 ++ r.outs⟩

/-- Basic bookkeeping for a single `ingest` call: given a bookmark inside the
file, the new bookmark is exactly the end of file. -/
lemma ingest_bookmark (file : List Char) (st : LogFileState)
    (h : st.bookmark ≤ file.length) : (ingest file st).2.bookmark = file.length := by
  unfold ingest
  by_cases hnil : file.drop st.bookmark = []
  · simp only [hnil, if_pos]
    have : file.length ≤ st.bookmark := List.drop_eq_nil_iff.mp hnil
    omega
  · simp [hnil]

/-- Invariant of `runEvents`: the bookmark stays inside the file and never
regresses, the file only grows at the end, and the text returned so far plus
the not-yet-ingested suffix is exactly the suffix of the file past the starting
bookmark. -/
lemma runEvents_inv (es : List TailEvent) (f : List Char) (st : LogFileState)
    (h : st.bookmark ≤ f.length) :
    (runEvents es f st).st.bookmark ≤ (runEvents es f st).file.length ∧
    st.bookmark ≤ (runEvents es f st).st.bookmark ∧
    (∃ t, (runEvents es f st).file = f ++ t) ∧
    (runEvents es f st).outs ++
        (runEvents es f st).file.drop (runEvents es f st).st.bookmark =
      (runEvents es f st).file.drop st.bookmark := by
  induction es generalizing f st with
  | nil =>
      refine ⟨h, le_refl _, ⟨[], by simp [runEvents]⟩, ?_⟩
      simp [runEvents]
  | cons e es ih =>
      cases e with
      | append s =>
          have h' : st.bookmark ≤ (f ++ s).length := by
            simp only [List.length_append]; omega
          obtain ⟨h1, h2, ⟨t, ht⟩, h4⟩ := ih (f ++ s) st h'
          refine ⟨h1, h2, ⟨s ++ t, by simp [runEvents, ht]⟩, ?_⟩
          simpa [runEvents] using h4
      | ingestCall =>
          have hbk : (ingest f st).2.bookmark = f.length := ingest_bookmark f st h
          have h' : (ingest f st).2.bookmark ≤ f.length := le_of_eq hbk
          obtain ⟨h1, h2, ⟨t, ht⟩, h4⟩ := ih f (ingest f st).2 h'
          simp only [runEvents]
          refine ⟨h1, by omega, ⟨t, by simpa using ht⟩, ?_⟩
          rw [List.append_assoc, h4, ht, hbk]
          rw [List.drop_left f t, List.drop_append_of_le_length h]
          show (ingest f st).1 ++ t = f.drop st.bookmark ++ t
          simp [ingest]

/-- Splitting a run at an append point. -/
lemma runEvents_append (es es' : List TailEvent) (f : List Char) (st : LogFileState) :
    runEvents (es ++ es') f st =
      ⟨(runEvents es' (runEvents es f st).file (runEvents es f st).st).file,
       (runEvents es' (runEvents es f st).file (runEvents es f st).st).st,
       (runEvents es f st).outs ++
         (runEvents es' (runEvents es f st).file (runEvents es f st).st).outs⟩ := by
  induction es generalizing f st with
  | nil => simp [runEvents]
  | cons e es ih =>
      cases e with
      | append s => simp [runEvents, ih]
      | ingestCall => simp [runEvents, ih]

/-- Claim C1.  For every sequence of appends to the watched file interleaved
with `ingest()` calls (the last event being an `ingest()` call, so every
appended byte has been offered to the reader), the concatenation of the
strings returned by all `ingest()` calls equals exactly the bytes of the
final file past the starting bookmark position — no byte returned twice,
none skipped; moreover after each `ingest()` the bookmark sits at the
end-of-file offset, and an `ingest()` performed when nothing new was written
returns the empty string. -/
theorem C1_log_tailing_exact (es : List TailEvent) (f0 : List Char)
    (logs0 : List Char) (b : Nat) (hb : b ≤ f0.length) :
    ((runEvents (es ++ [TailEvent.ingestCall]) f0 ⟨logs0, b⟩).outs =
        (runEvents (es ++ [TailEvent.ingestCall]) f0 ⟨logs0, b⟩).file.drop b ∧
      (runEvents (es ++ [TailEvent.ingestCall]) f0 ⟨logs0, b⟩).st.bookmark =
        (runEvents (es ++ [TailEvent.ingestCall]) f0 ⟨logs0, b⟩).file.length) ∧
    (∀ (f : List Char) (st : LogFileState), st.bookmark = f.length →
      (ingest f st).1 = []) := by
  constructor
  · obtain ⟨h1, h2, h3, h4⟩ :=
      runEvents_inv (es ++ [TailEvent.ingestCall]) f0 ⟨logs0, b⟩ hb
    have hlast : (runEvents (es ++ [TailEvent.ingestCall]) f0 ⟨logs0, b⟩).st.bookmark =
        (runEvents (es ++ [TailEvent.ingestCall]) f0 ⟨logs0, b⟩).file.length := by
      rw [runEvents_append es [TailEvent.ingestCall] f0 ⟨logs0, b⟩]
      obtain ⟨g1, _, _, _⟩ := runEvents_inv es f0 ⟨logs0, b⟩ hb
      simp only [runEvents]
      exact ingest_bookmark _ _ g1
    refine ⟨?_, hlast⟩
    have := h4
    rw [hlast] at this
    simpa using this
  · intro f st hst
    simp [ingest, List.drop_eq_nil_iff, hst]

/-- Witness for C1 at a concrete interleaving: file starts as "ab" with
bookmark 2, then append "cd", ingest, append "e", ingest; also a concrete
ingest with nothing new returning the empty string. -/
theorem C1_witness :
    ((runEvents ([TailEvent.append ['c','d'], TailEvent.ingestCall,
          TailEvent.append ['e']] ++ [TailEvent.ingestCall])
        ['a','b'] ⟨['a','b'], 2⟩).outs =
      (runEvents ([TailEvent.append ['c','d'], TailEvent.ingestCall,
          TailEvent.append ['e']] ++ [TailEvent.ingestCall])
        ['a','b'] ⟨['a','b'], 2⟩).file.drop 2 ∧
      (runEvents ([TailEvent.append ['c','d'], TailEvent.ingestCall,
          TailEvent.append ['e']] ++ [TailEvent.ingestCall])
        ['a','b'] ⟨['a','b'], 2⟩).st.bookmark =
      (runEvents ([TailEvent.append ['c','d'], TailEvent.ingestCall,
          TailEvent.append ['e']] ++ [TailEvent.ingestCall])
        ['a','b'] ⟨['a','b'], 2⟩).file.length) ∧
    (ingest ['a'] ⟨['a'], 1⟩).1 = [] :=
  ⟨(C1_log_tailing_exact
      [TailEvent.append ['c','d'], TailEvent.ingestCall, TailEvent.append ['e']]
      ['a','b'] ['a','b'] 2 (by decide)).1,
   (C1_log_tailing_exact
      [TailEvent.append ['c','d'], TailEvent.ingestCall, TailEvent.append ['e']]
      ['a','b'] ['a','b'] 2 (by decide)).2 ['a'] ⟨['a'], 1⟩ rfl⟩

/-! Embedding of `LogWatcher` (valveexe/logfile.py lines 39-252). -/

/-- The `PollingObserver` background task created in `LogWatcher.start`; its
configuration is the daemon flag assigned to it.  Present in the state
exactly while the `_observer` attribute exists on the watcher. -/
structure Observer where
  daemon : Bool
deriving DecidableEq

/-- State of a `LogWatcher`: the constructor attributes (logfile path and
state, polling interval, `iters`, `daemon`, `join`, `_in_context_manager`,
`_started`) plus the attributes `_observer` and `_successful_events` that are
created by `start()` and deleted (`del`) by `stop()`, modelled as `Option`s
(`none` = attribute absent, so an access raises `AttributeError`). -/
structure LogWatcherState where
  logfilePath : List Char
  logfile : LogFileState
  pollingIntervalMs : Nat
  iters : Nat
  daemon : Bool
  join : Bool
  inContextManager : Bool
  started : Bool
  observer : Option Observer
  successfulEvents : Option Nat
deriving DecidableEq

/-- Embedding of `LogWatcher.start` (logfile.py lines 93-117): if not yet
started, create a fresh `PollingObserver` carrying the daemon flag, reset the
success counter to 0, schedule and start the observer and set `_started`;
otherwise do nothing.  The second component records whether
`self._observer.join()` was called (`self.join and not
self._in_context_manager`); joining blocks the caller but changes no watcher
state. -/
def watcherStart (w : LogWatcherState) : LogWatcherState × Bool :=
  if w.started = false then
    ({ w with observer := some ⟨w.daemon⟩, successfulEvents := some 0,
              started := true },
     w.join && !w.inContextManager)
  else (w, false)

/-- Embedding of `LogWatcher.stop` (logfile.py lines 119-130): if started,
stop the observer (raising `AttributeError` if the `_observer` attribute has
already been deleted — unreachable in sequential executions), delete
`_observer` and `_successful_events` and clear `_started`; otherwise do
nothing. -/
def watcherStop (w : LogWatcherState) : Except PyError LogWatcherState :=
  if w.started = true then
    match w.observer with
    | some _ =>
        Except.ok { w with observer := none, successfulEvents := none,
                           started := false }
    | none => Except.error PyError.attributeError
  else Except.ok w

/-- The event-type tags watchdog can deliver; `other` stands for any tag not
named by a `case` of the `match` in `on_any_event`. -/
inductive FsEventType where
  | modified
  | created
  | deleted
  | closed
  | moved
  | other
deriving DecidableEq

/-- A filesystem notification as consumed by `on_any_event`: the
`is_directory` flag, the (absolute) source path and the event type. -/
structure FsEvent where
  isDirectory : Bool
  srcPath : List Char
  eventType : FsEventType
deriving DecidableEq

/-- Embedding of `LogWatcher.on_any_event` (logfile.py lines 132-163),
parameterised by the overridable per-type handlers (a handler consumes the
watcher state and returns its boolean result plus the possibly updated
state).  Directory events and events for any other path are discarded.  A
truthy handler result increments `_successful_events` (raising
`AttributeError` if that attribute was deleted); afterwards, if the counter
has reached `iters`, `stop()` is called from within this method. -/
def onAnyEvent (handler : FsEventType → LogWatcherState → Bool × LogWatcherState)
    (w : LogWatcherState) (ev : FsEvent) : Except PyError LogWatcherState :=
  if ev.isDirectory = false ∧ ev.srcPath = w.logfilePath then
    let hr : Option (Bool × LogWatcherState) :=
      match ev.eventType with
      | .modified => some (handler .modified w)
      | .created => some (handler .created w)
      | .deleted => some (handler .deleted w)
      | .closed => some (handler .closed w)
      | .moved => some (handler .moved w)
      | .other => none
    let succ := (hr.getD (false, w)).1
    let w1 := (hr.getD (false, w)).2
    let step1 : Except PyError LogWatcherState :=
      if succ = true then
        match w1.successfulEvents with
        | some n => Except.ok { w1 with successfulEvents := some (n + 1) }
        | none => Except.error PyError.attributeError
      else Except.ok w1
    match step1 with
    | Except.error e => Except.error e
    | Except.ok w2 =>
        match w2.successfulEvents with
        | some n =>
            if w2.iters ≤ n then watcherStop w2 else Except.ok w2
        | none => Except.error PyError.attributeError
  else Except.ok w

/-- Process a sequence of filtered notifications for the target file, one
`on_any_event` call per notification; the boolean `b` of each notification is
the result the dispatched handler returns for it (the handler itself leaves
the state unchanged, as the base-class defaults do). -/
def processResults (w : LogWatcherState) : List Bool → Except PyError LogWatcherState
  | [] => Except.ok w
  | b :: rest => do
      let w' ← onAnyEvent (fun _ ww => (b, ww)) w
        ⟨false, w.logfilePath, FsEventType.modified⟩
      processResults w' rest

/-- Number of truthy handler results in a notification sequence. -/
def countTrue : List Bool → Nat
  | [] => 0
  | true :: bs => countTrue bs + 1
  | false :: bs => countTrue bs

/-- Unfolding of one `on_any_event` step for a matching file notification
whose dispatched handler returns `false`. -/
lemma onAnyEvent_false (w : LogWatcherState) (c : Nat)
    (hc : w.successfulEvents = some c) :
    onAnyEvent (fun _ ww => (false, ww)) w
        ⟨false, w.logfilePath, FsEventType.modified⟩ =
      if w.iters ≤ c then watcherStop w else Except.ok w := by
  simp [onAnyEvent, hc]

/-- Unfolding of one `on_any_event` step for a matching file notification
whose dispatched handler returns `true`: the success counter is incremented
before the threshold test. -/
lemma onAnyEvent_true (w : LogWatcherState) (c : Nat)
    (hc : w.successfulEvents = some c) :
    onAnyEvent (fun _ ww => (true, ww)) w
        ⟨false, w.logfilePath, FsEventType.modified⟩ =
      if w.iters ≤ c + 1 then
        watcherStop { w with successfulEvents := some (c + 1) }
      else Except.ok { w with successfulEvents := some (c + 1) } := by
  simp [onAnyEvent, hc]

/-- Helper for C2: as long as the running total of truthy results stays below
the threshold, processing succeeds, the watcher keeps running and the counter
tracks the number of truthy results seen. -/
lemma processResults_below (bs : List Bool) (w : LogWatcherState) (c : Nat)
    (hc : w.successfulEvents = some c) (hlt : c + countTrue bs < w.iters) :
    processResults w bs =
      Except.ok { w with successfulEvents := some (c + countTrue bs) } := by
  induction bs generalizing w c with
  | nil =>
      simp only [processResults, countTrue, Nat.add_zero]
      rw [← hc]
  | cons b rest ih =>
      cases b with
      | false =>
          simp only [countTrue] at hlt
          have hn : ¬ w.iters ≤ c := by omega
          simp only [processResults, countTrue, onAnyEvent_false w c hc, if_neg hn]
          exact ih w c hc hlt
      | true =>
          simp only [countTrue] at hlt
          have hn : ¬ w.iters ≤ c + 1 := by omega
          simp only [processResults, countTrue, onAnyEvent_true w c hc, if_neg hn]
          rw [show c + (countTrue rest + 1) = c + 1 + countTrue rest from by omega]
          exact ih { w with successfulEvents := some (c + 1) } (c + 1) rfl
            (by show c + 1 + countTrue rest < w.iters; omega)

/-- Helper for C2: when the truthy results seen so far plus the truthy result
of the final matching notification reach the threshold, `stop()` fires from
within `on_any_event` on that final notification and the watcher ends
stopped, with the observer and counter attributes deleted. -/
lemma processResults_reach (bs : List Bool) (w : LogWatcherState) (c : Nat)
    (hst : w.started = true) (hobs : w.observer.isSome = true)
    (hc : w.successfulEvents = some c)
    (heq : c + countTrue bs + 1 = w.iters) :
    processResults w (bs ++ [true]) =
      Except.ok { w with observer := none, successfulEvents := none,
                         started := false } := by
  induction bs generalizing w c with
  | nil =>
      simp only [countTrue, Nat.add_zero] at heq
      have hle : w.iters ≤ c + 1 := by omega
      obtain ⟨o, ho⟩ := Option.isSome_iff_exists.mp hobs
      simp only [List.nil_append, processResults, onAnyEvent_true w c hc,
        if_pos hle, watcherStop, hst, if_pos, ho]
      rfl
  | cons b rest ih =>
      cases b with
      | false =>
          simp only [countTrue] at heq
          have hn : ¬ w.iters ≤ c := by omega
          simp only [List.cons_append, processResults, countTrue,
            onAnyEvent_false w c hc, if_neg hn]
          exact ih w c hst hobs hc heq
      | true =>
          simp only [countTrue] at heq
          have hn : ¬ w.iters ≤ c + 1 := by omega
          simp only [List.cons_append, processResults, countTrue,
            onAnyEvent_true w c hc, if_neg hn]
          exact ih { w with successfulEvents := some (c + 1) } (c + 1) hst hobs rfl
            (by show c + 1 + countTrue rest + 1 = w.iters; omega)

/-- Claim C2.  For a watcher started with success threshold `iters = k`
(`k ≥ 1`) and any sequence of filtered notifications for the target file:
while fewer than `k` handler invocations have returned truthy the watcher is
still running (with the counter equal to the number of truthy results seen,
however many falsy results are interleaved), and on the notification carrying
the `k`-th truthy handler result `stop()` fires from within `on_any_event`
and the watcher ends stopped. -/
theorem C2_threshold_autostop (k : Nat) (bs : List Bool) (w : LogWatcherState)
    (hk : 1 ≤ k) (hit : w.iters = k) (hst : w.started = true)
    (hobs : w.observer.isSome = true) (hc : w.successfulEvents = some 0) :
    (countTrue bs < k →
      processResults w bs =
        Except.ok { w with successfulEvents := some (countTrue bs) } ∧
      ({ w with successfulEvents := some (countTrue bs) } : LogWatcherState).started
        = true) ∧
    (countTrue bs = k - 1 →
      processResults w (bs ++ [true]) =
        Except.ok { w with observer := none, successfulEvents := none,
                           started := false } ∧
      ({ w with observer := none, successfulEvents := none,
                started := false } : LogWatcherState).started = false) := by
  constructor
  · intro hlt
    have := processResults_below bs w 0 hc (by omega)
    simp only [Nat.zero_add] at this
    exact ⟨this, hst⟩
  · intro heq
    exact ⟨processResults_reach bs w 0 hst hobs hc (by omega), rfl⟩

/-- Witness for C2 with threshold 2 and notification results `[false, true]`
(one falsy interleaved, one truthy): not stopped yet after those two
notifications, and stopped exactly on a third notification carrying the
second truthy result. -/
theorem C2_witness :
    processResults
        ⟨['l'], ⟨[], 0⟩, 500, 2, true, false, false, true, some ⟨true⟩, some 0⟩
        [false, true] =
      Except.ok ⟨['l'], ⟨[], 0⟩, 500, 2, true, false, false, true, some ⟨true⟩,
        some 1⟩ ∧
    processResults
        ⟨['l'], ⟨[], 0⟩, 500, 2, true, false, false, true, some ⟨true⟩, some 0⟩
        ([false, true] ++ [true]) =
      Except.ok ⟨['l'], ⟨[], 0⟩, 500, 2, true, false, false, false, none, none⟩ :=
  ⟨((C2_threshold_autostop 2 [false, true]
      ⟨['l'], ⟨[], 0⟩, 500, 2, true, false, false, true, some ⟨true⟩, some 0⟩
      (by decide) rfl rfl rfl rfl).1 (by decide)).1,
   ((C2_threshold_autostop 2 [false, true]
      ⟨['l'], ⟨[], 0⟩, 500, 2, true, false, false, true, some ⟨true⟩, some 0⟩
      (by decide) rfl rfl rfl rfl).2 (by decide)).1⟩

/-- Embedding of `LogWatcher.__enter__` (logfile.py lines 238-241): set
`_in_context_manager`, then `start()` (so the join-on-start branch is
skipped) and return. -/
def watcherEnter (w : LogWatcherState) : LogWatcherState × Bool :=
  watcherStart { w with inContextManager := true }

/-- Embedding of `LogWatcher.__exit__` (logfile.py lines 243-247): call
`self._observer.join()` — which raises `AttributeError` when the `_observer`
attribute has already been deleted by an earlier `stop()` — then `stop()`,
clear `_in_context_manager` and return `False` (exceptions from the guarded
block are not suppressed). -/
def watcherExit (w : LogWatcherState) : Except PyError (LogWatcherState × Bool) :=
  match w.observer with
  | none => Except.error PyError.attributeError
  | some _ =>
      match watcherStop w with
      | Except.error e => Except.error e
      | Except.ok w1 => Except.ok ({ w1 with inContextManager := false }, false)

/-- Counterexample to claim C7.  A watcher with threshold 1 is acquired as a
context manager; inside the guarded block one matching notification with a
truthy handler result arrives, so the watcher auto-stops (deleting its
`_observer` attribute).  The subsequent release (`__exit__`) then raises
`AttributeError` instead of returning cleanly. -/
theorem C7_counterexample :
    (match processResults
        (watcherEnter
          ⟨['l'], ⟨[], 0⟩, 500, 1, true, false, false, false, none, none⟩).1
        [true] with
     | Except.ok w1 => watcherExit w1
     | Except.error e => Except.error e) =
      Except.error PyError.attributeError := by
  rfl

/-- Claim C7, amended.  On release, when the watcher is still running
(its `_observer` attribute exists), `__exit__` waits for the background task,
stops the watcher and clears the context flag without raising and without
suppressing exceptions from the guarded block; but when the watcher already
auto-stopped inside the guarded scope (the `_observer` attribute was deleted
by `stop()`), `__exit__` raises `AttributeError`. -/
theorem C7_guarded_exit_amended (w : LogWatcherState) :
    (w.started = true → w.observer.isSome = true →
      watcherExit w =
        Except.ok ({ w with observer := none, successfulEvents := none,
                            started := false, inContextManager := false },
                   false)) ∧
    (w.observer = none → watcherExit w = Except.error PyError.attributeError) := by
  constructor
  · intro hst hobs
    obtain ⟨o, ho⟩ := Option.isSome_iff_exists.mp hobs
    simp only [watcherExit, ho, watcherStop, hst, if_pos]
  · intro hnone
    simp [watcherExit, hnone]

/-- Witness for the amended claim C7 at a concrete running watcher and a
concrete already-auto-stopped one. -/
theorem C7_witness :
    watcherExit
        ⟨['l'], ⟨[], 0⟩, 500, 1, true, false, true, true, some ⟨true⟩, some 0⟩ =
      Except.ok (⟨['l'], ⟨[], 0⟩, 500, 1, true, false, false, false, none, none⟩,
                 false) ∧
    watcherExit
        ⟨['l'], ⟨[], 0⟩, 500, 1, true, false, true, false, none, none⟩ =
      Except.error PyError.attributeError :=
  ⟨(C7_guarded_exit_amended
      ⟨['l'], ⟨[], 0⟩, 500, 1, true, false, true, true, some ⟨true⟩, some 0⟩).1
      rfl rfl,
   (C7_guarded_exit_amended
      ⟨['l'], ⟨[], 0⟩, 500, 1, true, false, true, false, none, none⟩).2 rfl⟩

/-- Claim C8.  Calling `start()` on an already-running watcher changes
nothing (and performs no join); after any `start()` exactly one observer task
is active and a second `start()` is a no-op; calling `stop()` on an idle or
already-stopped watcher is a no-op that does not raise; and from a running
watcher `stop()` succeeds, after which a repeated `stop()` is again a safe
no-op. -/
theorem C8_idempotent_start_stop (w : LogWatcherState)
    (hinv : w.started = true → w.observer.isSome = true) :
    (w.started = true → watcherStart w = (w, false)) ∧
    ((watcherStart w).1.observer.isSome = true ∧
      watcherStart (watcherStart w).1 = ((watcherStart w).1, false)) ∧
    (w.started = false → watcherStop w = Except.ok w) ∧
    (w.started = true →
      ∃ w', watcherStop w = Except.ok w' ∧ w'.started = false ∧
        watcherStop w' = Except.ok w') := by
  refine ⟨?_, ⟨?_, ?_⟩, ?_, ?_⟩
  · intro hst
    simp [watcherStart, hst]
  · by_cases hst : w.started = true
    · simpa [watcherStart, hst] using hinv hst
    · simp only [Bool.not_eq_true] at hst
      simp [watcherStart, hst]
  · by_cases hst : w.started = true
    · simp [watcherStart, hst]
    · simp only [Bool.not_eq_true] at hst
      simp [watcherStart, hst]
  · intro hst
    simp [watcherStop, hst]
  · intro hst
    obtain ⟨o, ho⟩ := Option.isSome_iff_exists.mp (hinv hst)
    refine ⟨{ w with observer := none, successfulEvents := none, started := false }, ?_, rfl, ?_⟩
    · simp [watcherStop, hst, ho]
    · simp [watcherStop]

/-- Witness for C8 at a concrete idle watcher and a concrete running one. -/
theorem C8_witness :
    watcherStart ⟨['l'], ⟨[], 0⟩, 500, 1, true, false, false, true, some ⟨true⟩,
        some 0⟩ =
      (⟨['l'], ⟨[], 0⟩, 500, 1, true, false, false, true, some ⟨true⟩, some 0⟩,
       false) ∧
    (watcherStart
        ⟨['l'], ⟨[], 0⟩, 500, 1, true, false, false, false, none, none⟩).1.observer.isSome
      = true ∧
    watcherStart (watcherStart
        ⟨['l'], ⟨[], 0⟩, 500, 1, true, false, false, false, none, none⟩).1 =
      ((watcherStart
        ⟨['l'], ⟨[], 0⟩, 500, 1, true, false, false, false, none, none⟩).1, false) ∧
    watcherStop ⟨['l'], ⟨[], 0⟩, 500, 1, true, false, false, false, none, none⟩ =
      Except.ok ⟨['l'], ⟨[], 0⟩, 500, 1, true, false, false, false, none, none⟩ ∧
    watcherStop ⟨['l'], ⟨[], 0⟩, 500, 1, true, false, false, true, some ⟨true⟩,
        some 0⟩ =
      Except.ok ⟨['l'], ⟨[], 0⟩, 500, 1, true, false, false, false, none, none⟩ ∧
    watcherStop ⟨['l'], ⟨[], 0⟩, 500, 1, true, false, false, false, none, none⟩ =
      Except.ok ⟨['l'], ⟨[], 0⟩, 500, 1, true, false, false, false, none, none⟩ :=
  ⟨(C8_idempotent_start_stop
      ⟨['l'], ⟨[], 0⟩, 500, 1, true, false, false, true, some ⟨true⟩, some 0⟩
      (by decide)).1 rfl,
   (C8_idempotent_start_stop
      ⟨['l'], ⟨[], 0⟩, 500, 1, true, false, false, false, none, none⟩
      (by decide)).2.1.1,
   (C8_idempotent_start_stop
      ⟨['l'], ⟨[], 0⟩, 500, 1, true, false, false, false, none, none⟩
      (by decide)).2.1.2,
   (C8_idempotent_start_stop
      ⟨['l'], ⟨[], 0⟩, 500, 1, true, false, false, false, none, none⟩
      (by decide)).2.2.1 rfl,
   rfl, rfl⟩

/-! Embedding of `RegexLogWatcher` (valveexe/logfile.py lines 254-310).
The pattern of the watcher is modelled as a literal pattern; `re.search` on a
literal pattern succeeds exactly when the pattern occurs as a contiguous
substring anywhere in the text (a non-anchored match). -/

/-- Does `p` match at the very front of `t`? -/
def matchHere : List Char → List Char → Bool
  | [], _ => true
  | _ :: _, [] => false
  | a :: ps, b :: ts => a = b && matchHere ps ts

/-- Embedding of `re.search` for a literal pattern: scan every position of
`t` for a front match of `p`. -/
def regexsearch (p : List Char) : List Char → Bool
  | [] => matchHere p []
  | t@(_ :: ts) => matchHere p t || regexsearch p ts

/-- Front-match characterisation. -/
lemma matchHere_iff (p t : List Char) :
    matchHere p t = true ↔ ∃ s, t = p ++ s := by
  induction p generalizing t with
  | nil => simp only [matchHere, true_iff]; exact ⟨t, rfl⟩
  | cons a ps ih =>
      cases t with
      | nil =>
          simp only [matchHere, Bool.false_eq_true, false_iff]
          rintro ⟨s, hs⟩
          exact List.cons_ne_nil a (ps ++ s) hs.symm
      | cons b ts =>
          simp only [matchHere, Bool.and_eq_true, decide_eq_true_eq, ih,
            List.cons_append, List.cons.injEq]
          constructor
          · rintro ⟨rfl, s, rfl⟩
            exact ⟨s, rfl, rfl⟩
          · rintro ⟨s, rfl, rfl⟩
            exact ⟨rfl, s, rfl⟩

/-- Substring-anywhere characterisation of the literal `re.search`: the
pattern is found iff the text splits as some prefix text, the pattern, and
some suffix text — i.e. a match at any position, not a full-text
anchor. -/
lemma regexsearch_iff (p t : List Char) :
    regexsearch p t = true ↔ ∃ u v, t = u ++ p ++ v := by
  induction t with
  | nil =>
      simp only [regexsearch, matchHere_iff]
      constructor
      · rintro ⟨s, hs⟩
        exact ⟨[], s, by simpa using hs⟩
      · rintro ⟨u, v, huv⟩
        have hu : u = [] := by
          cases u with
          | nil => rfl
          | cons x xs => exact absurd huv.symm (List.cons_ne_nil _ _)
        subst hu
        exact ⟨v, by simpa using huv⟩
  | cons b ts ih =>
      simp only [regexsearch, Bool.or_eq_true, matchHere_iff, ih]
      constructor
      · rintro (⟨s, hs⟩ | ⟨u, v, huv⟩)
        · exact ⟨[], s, by simpa using hs⟩
        · exact ⟨b :: u, v, by simp [huv]⟩
      · rintro ⟨u, v, huv⟩
        cases u with
        | nil =>
            left
            exact ⟨v, by simpa using huv⟩
        | cons x xs =>
            right
            simp only [List.cons_append, List.cons.injEq] at huv
            exact ⟨xs, v, huv.2⟩

/-- State of a `RegexLogWatcher`: the inherited `LogWatcher` state plus the
constructor attributes `pattern` and `callback` (with `args`/`kwargs` bound
ahead of time).  The callback is an abstract invokable returning a boolean
success signal, so it is modelled by the value it returns; `none` models a
`callback` that is not callable. -/
structure RegexLogWatcherState where
  base : LogWatcherState
  pattern : List Char
  callback : Option Bool
deriving DecidableEq

/-- Embedding of `RegexLogWatcher.on_modified` (logfile.py lines 296-302):
call `self.logfile.ingest()`, test the returned new text against the pattern
with `re.search`, and if it matches and the callback is callable, invoke the
callback with its bound arguments and return its result; otherwise return
`False`.  The middle component records whether the callback was invoked. -/
def regexOnModified (file : List Char) (st : RegexLogWatcherState) :
    Bool × Bool × RegexLogWatcherState :=
  let p := ingest file st.base.logfile
  let st' : RegexLogWatcherState :=
    { st with base := { st.base with logfile := p.2 } }
  match regexsearch st.pattern p.1, st.callback with
  | true, some r => (r, true, st')
  | true, none => (false, false, st')
  | false, _ => (false, false, st')

/-- Embedding of `RegexLogWatcher.on_created` (logfile.py lines 304-309):
delegates to `on_modified`. -/
def regexOnCreated (file : List Char) (st : RegexLogWatcherState) :
    Bool × Bool × RegexLogWatcherState :=
  regexOnModified file st

/-- Claim C3.  On a modified notification the watcher ingests the new text;
the callback is invoked (with its bound arguments) iff the pattern occurs
somewhere inside the newly ingested text — a substring match, not a
full-text anchor — and a callable callback is registered; when invoked, the
result of the callback is returned as the success signal, and otherwise the
result is `False`; the logfile state is advanced by the ingest; and a
created notification produces exactly the same result as a modified one. -/
theorem C3_regex_trigger (file : List Char) (st : RegexLogWatcherState) :
    ((regexOnModified file st).2.1 = true ↔
      ((∃ u v, (ingest file st.base.logfile).1 = u ++ st.pattern ++ v) ∧
        st.callback.isSome = true)) ∧
    (∀ r, st.callback = some r →
      (∃ u v, (ingest file st.base.logfile).1 = u ++ st.pattern ++ v) →
      (regexOnModified file st).1 = r) ∧
    ((regexOnModified file st).2.1 = false → (regexOnModified file st).1 = false) ∧
    ((regexOnModified file st).2.2.base.logfile = (ingest file st.base.logfile).2) ∧
    regexOnCreated file st = regexOnModified file st := by
  have hsearch := regexsearch_iff st.pattern (ingest file st.base.logfile).1
  refine ⟨?_, ?_, ?_, ?_, rfl⟩
  · unfold regexOnModified
    rcases hm : regexsearch st.pattern (ingest file st.base.logfile).1 with _ | _ <;>
      rcases hc : st.callback with _ | r <;>
        simp_all [hsearch.symm]
  · intro r hc hex
    have hm : regexsearch st.pattern (ingest file st.base.logfile).1 = true :=
      hsearch.mpr hex
    unfold regexOnModified
    simp only [hm, hc]
  · unfold regexOnModified
    rcases hm : regexsearch st.pattern (ingest file st.base.logfile).1 with _ | _ <;>
      rcases hc : st.callback with _ | r <;> simp_all
  · unfold regexOnModified
    rcases hm : regexsearch st.pattern (ingest file st.base.logfile).1 with _ | _ <;>
      rcases hc : st.callback with _ | r <;> simp_all

/-- Witness for C3 at a concrete state: the file grows to "xnavy" (pattern
"nav" strictly in the middle, so the match is not anchored at either end),
the callback is registered and returns `true`: it is invoked, its result is
returned, the logfile advances, and a created notification agrees. -/
theorem C3_witness :
    (regexOnModified ['x','n','a','v','y']
        ⟨⟨['l'], ⟨[], 0⟩, 500, 1, true, false, false, true, some ⟨true⟩, some 0⟩,
          ['n','a','v'], some true⟩).2.1 = true ∧
    (regexOnModified ['x','n','a','v','y']
        ⟨⟨['l'], ⟨[], 0⟩, 500, 1, true, false, false, true, some ⟨true⟩, some 0⟩,
          ['n','a','v'], some true⟩).1 = true ∧
    ((regexOnModified ['x','n','a','v','y']
        ⟨⟨['l'], ⟨[], 0⟩, 500, 1, true, false, false, true, some ⟨true⟩, some 0⟩,
          ['n','a','v'], some true⟩).2.2.base.logfile =
      (ingest ['x','n','a','v','y'] ⟨[], 0⟩).2) ∧
    regexOnCreated ['x','n','a','v','y']
        ⟨⟨['l'], ⟨[], 0⟩, 500, 1, true, false, false, true, some ⟨true⟩, some 0⟩,
          ['n','a','v'], some true⟩ =
      regexOnModified ['x','n','a','v','y']
        ⟨⟨['l'], ⟨[], 0⟩, 500, 1, true, false, false, true, some ⟨true⟩, some 0⟩,
          ['n','a','v'], some true⟩ :=
  ⟨(C3_regex_trigger ['x','n','a','v','y']
      ⟨⟨['l'], ⟨[], 0⟩, 500, 1, true, false, false, true, some ⟨true⟩, some 0⟩,
        ['n','a','v'], some true⟩).1.mpr ⟨⟨['x'], ['y'], rfl⟩, rfl⟩,
   (C3_regex_trigger ['x','n','a','v','y']
      ⟨⟨['l'], ⟨[], 0⟩, 500, 1, true, false, false, true, some ⟨true⟩, some 0⟩,
        ['n','a','v'], some true⟩).2.1 true rfl ⟨['x'], ['y'], rfl⟩,
   (C3_regex_trigger ['x','n','a','v','y']
      ⟨⟨['l'], ⟨[], 0⟩, 500, 1, true, false, false, true, some ⟨true⟩, some 0⟩,
        ['n','a','v'], some true⟩).2.2.2.1,
   (C3_regex_trigger ['x','n','a','v','y']
      ⟨⟨['l'], ⟨[], 0⟩, 500, 1, true, false, false, true, some ⟨true⟩, some 0⟩,
        ['n','a','v'], some true⟩).2.2.2.2⟩

/-! Embedding of `ValveExe` (valveexe/exe.py) and its process-query boundary
(valveexe/utils.py, psutil). -/

/-- Status of one open network connection of the external process, as
reported by the process-query boundary (`psutil.Process.connections()`
returns connections of every status, not only listening ones). -/
inductive ConnStatus where
  | listen
  | established
  | closeWait
deriving DecidableEq

/-- One open network connection of the external process. -/
structure PConn where
  status : ConnStatus
deriving DecidableEq

/-- Whether a connection is a listening one. -/
def isListening (c : PConn) : Bool :=
  c.status = ConnStatus.listen

/-- The queryable state of a live external process: its command-line
arguments and its currently open network connections. -/
structure ProcInfo where
  cmdline : List String
  connections : List PConn
deriving DecidableEq

/-- Embedding of `ValveExe._check_rcon_eligible` (exe.py lines 131-147),
returning `None`/`True`/`False` as `none`/`some true`/`some false`: with no
live process handle the result is `none` (Unknown); with a live process
whose command line lacks `-usercon` the result is `some false`; otherwise
the result is `bool(process.connections())`, i.e. whether the process holds
at least one open network connection of any status. -/
def check_rcon_eligible (process : Option ProcInfo) : Option Bool :=
  match process with
  | some p =>
      if "-usercon" ∉ p.cmdline then some false
      else some (!p.connections.isEmpty)
  | none => none

/-- Counterexample to claim C4 as stated.  A live process launched with
`-usercon` that holds exactly one open connection in `ESTABLISHED` state (no
listening connection at all): the code returns Eligible (`some true`) even
though the process holds no open listening connection, so "Eligible iff at
least one open listening network connection" is false at this input. -/
theorem C4_counterexample :
    ¬ (check_rcon_eligible
          (some ⟨["game.exe", "-usercon"], [⟨ConnStatus.established⟩]⟩) =
            some true ↔
        ([(⟨ConnStatus.established⟩ : PConn)].any isListening) = true) := by
  decide

/-- Claim C4, amended.  The eligibility check returns Unknown (`none`)
exactly when no live process handle exists; with a live process whose
command line lacks `-usercon` it returns NotEligible (`some false`); and
with the flag present it returns Eligible (`some true`) iff the process
currently holds at least one open network connection of any status (the
code does not require the connection to be a listening one). -/
theorem C4_eligibility_amended (process : Option ProcInfo) :
    (check_rcon_eligible process = none ↔ process = none) ∧
    (∀ p, process = some p →
      ("-usercon" ∉ p.cmdline → check_rcon_eligible process = some false) ∧
      ("-usercon" ∈ p.cmdline →
        (check_rcon_eligible process = some true ↔ p.connections ≠ []))) := by
  constructor
  · cases process with
    | none => simp [check_rcon_eligible]
    | some p =>
        simp only [check_rcon_eligible, iff_false, reduceCtorEq]
        by_cases h : "-usercon" ∉ p.cmdline <;> simp [h]
  · intro p hp
    subst hp
    constructor
    · intro h
      simp [check_rcon_eligible, h]
    · intro h
      have h' : ¬ "-usercon" ∉ p.cmdline := by simpa using h
      simp only [check_rcon_eligible, if_neg h', Option.some.injEq,
        Bool.not_eq_true', List.isEmpty_eq_false]

/-- Witness for the amended claim C4: no process gives Unknown; a process
without the flag gives NotEligible; a process with the flag and one open
connection gives Eligible. -/
theorem C4_witness :
    check_rcon_eligible none = none ∧
    check_rcon_eligible (some ⟨["game.exe"], []⟩) = some false ∧
    check_rcon_eligible
        (some ⟨["game.exe", "-usercon"], [⟨ConnStatus.listen⟩]⟩) = some true :=
  ⟨(C4_eligibility_amended none).1.mpr rfl,
   ((C4_eligibility_amended (some ⟨["game.exe"], []⟩)).2 ⟨["game.exe"], []⟩
      rfl).1 (by decide),
   ((C4_eligibility_amended
        (some ⟨["game.exe", "-usercon"], [⟨ConnStatus.listen⟩]⟩)).2
      ⟨["game.exe", "-usercon"], [⟨ConnStatus.listen⟩]⟩ rfl).2 (by decide)
     |>.mpr (by decide)⟩

/-- One of the two console backends, as constructed in `ValveExe.__enter__`.
Modelled from the spec: valveexe/console.py is not part of the sources here;
per §4.5 the two ControlChannel variants are abstract command channels
identified by their construction arguments — `RconConsole(host, port,
password)` and `ExecConsole(gameExe, gameDir, uuid)` — exposing an identical
`run` contract, so a backend is modelled by its constructor data and a sent
command is recorded as (backend, command, parameters). -/
inductive VConsole where
  | rcon (host : String) (port : Nat) (password : String)
  | execCon (gameExe : String) (gameDir : String) (uuid : String)
deriving DecidableEq

/-- State of a `ValveExe` controller: the attributes assigned in
`ValveExe.__init__` (exe.py lines 48-62). -/
structure ValveExeState where
  gameExe : String
  gameDir : String
  steamExe : Option String
  appid : Option Nat
  exeName : String
  uuid : String
  logName : String
  logPath : String
  process : Option ProcInfo
  console : Option VConsole
  hijacked : Option Bool
  rcon_enabled : Option Bool
deriving DecidableEq

/-- A Python argument value, for modelling call arity. -/
inductive PyVal where
  | vStr (s : String)
  | vBool (b : Bool)
deriving DecidableEq

/-- Embedding of the call `LogFile(...)` against `LogFile.__init__`
(logfile.py lines 12-21), which accepts exactly one positional argument
`file_path`: any other argument shape raises `TypeError`.  With a single
path argument it initialises `logs` to the empty string and the bookmark to
0, then performs the initial ingest when the file already exists
(`fileContent` is `some` of its contents). -/
def logFile_new (args : List PyVal) (fileContent : Option (List Char)) :
    Except PyError LogFileState :=
  match args with
  | [PyVal.vStr _] =>
      Except.ok
        (match fileContent with
         | some c => (ingest c ⟨[], 0⟩).2
         | none => ⟨[], 0⟩)
  | _ => Except.error PyError.typeError

/-- Embedding of `ValveExe.__init__` (exe.py lines 48-62): compute `exeName`
as the last backslash-separated component of `gameExe`, generate the session
`uuid` (taken as a parameter, it is random), derive `logName` and `logPath`
(`os.path.join` modelled as separator concatenation), then evaluate
`LogFile(self.logPath, True)` — a call with two positional arguments.  The
remaining assignments (console, rcon_enabled, find_process, cleanup) follow
the LogFile call in the source and are reached only if it returns. -/
def valveExe_init (gameExe gameDir : String) (steamExe : Option String)
    (appid : Option Nat) (uuidStr : String) (fileContent : Option (List Char))
    (foundProcess : Option ProcInfo) : Except PyError ValveExeState :=
  let exeName := (gameExe.splitOn "\\").getLastD ""
  let logName := "valve-exe-" ++ uuidStr ++ ".log"
  let logPath := gameDir ++ "/" ++ logName
  match logFile_new [PyVal.vStr logPath, PyVal.vBool true] fileContent with
  | Except.error e => Except.error e
  | Except.ok _ =>
      Except.ok
        { gameExe := gameExe, gameDir := gameDir, steamExe := steamExe,
          appid := appid, exeName := exeName, uuid := uuidStr,
          logName := logName, logPath := logPath, process := foundProcess,
          console := none, hijacked := none, rcon_enabled := none }

/-- Claim C6.  For every choice of constructor arguments (and of the random
session uuid, the on-disk log file contents and the process table),
constructing a `ValveExe` raises `TypeError` before completing: its
constructor body calls `LogFile` with two positional arguments while
`LogFile.__init__` accepts exactly one, so no `ValveExe` object is ever
successfully created through the public constructor. -/
theorem C6_constructor_type_error (gameExe gameDir : String)
    (steamExe : Option String) (appid : Option Nat) (uuidStr : String)
    (fileContent : Option (List Char)) (foundProcess : Option ProcInfo) :
    valveExe_init gameExe gameDir steamExe appid uuidStr fileContent
        foundProcess =
      Except.error PyError.typeError := rfl

/-- The polling loop of `ValveExe.__enter__` (exe.py lines 149-151): the
`i`-th evaluation of the loop condition calls `_check_rcon_eligible()` and
observes `trace i`; the loop re-polls (sleeping a fixed 3 seconds) while the
result is `None` and exits at the first call returning a settled value,
whose index is returned.  `fuel` bounds how many polls are observed: `none`
means the loop was still polling after `fuel` calls (the caller stays
blocked). -/
def awaitLoop (trace : Nat → Option Bool) : Nat → Nat → Option Nat
  | _, 0 => none
  | i, fuel + 1 =>
      match trace i with
      | some _ => some i
      | none => awaitLoop trace (i + 1) fuel

/-- The result of the `i`-th `_check_rcon_eligible()` call during one
`__enter__`.  `self.process` is fixed for the whole negotiation (nothing in
`__enter__` mutates it), so the call returns `None` exactly when the handle
is absent — constantly; with a live handle, the command line is fixed but
the open connections are re-queried on every call, so `conns i` gives the
connection list seen by call `i` and the call always returns a settled
value.  (A handle whose OS process has vanished makes `psutil.Process(pid)`
raise `NoSuchProcess`, which propagates out of `__enter__` without any
backend being chosen; the embedding covers executions where the handle
stays queryable.) -/
def eligibilityCall (process : Option ProcInfo) (conns : Nat → List PConn)
    (i : Nat) : Option Bool :=
  match process with
  | some p => check_rcon_eligible (some ⟨p.cmdline, conns i⟩)
  | none => none

/-- With a live process handle, every eligibility call returns a settled
value, never Unknown. -/
lemma eligibilityCall_ne_none (p : ProcInfo) (conns : Nat → List PConn)
    (i : Nat) : eligibilityCall (some p) conns i ≠ none := by
  simp only [eligibilityCall, check_rcon_eligible]
  by_cases h : "-usercon" ∉ p.cmdline <;> simp [h]

/-- Embedding of `ValveExe.__enter__` (exe.py lines 149-159): poll
eligibility until non-`None`, then call `_check_rcon_eligible()` once more
in the `if`; when that call is truthy (`Some True`) construct
`RconConsole("127.0.0.1", 27015, self.uuid)`, otherwise construct
`ExecConsole(self.gameExe, self.gameDir, self.uuid)`; store it in
`self.console` and return it.  Each call observes the fixed `st.process`
handle and the connection list `conns i` current at that call.  The last
component records every eligibility result observed: the loop polls 0..k
and the deciding call k+1. -/
def valveExe_enter (st : ValveExeState) (conns : Nat → List PConn)
    (fuel : Nat) : Option (ValveExeState × VConsole × List (Option Bool)) :=
  match awaitLoop (fun i => eligibilityCall st.process conns i) 0 fuel with
  | none => none
  | some k =>
      let c := if eligibilityCall st.process conns (k + 1) = some true
        then VConsole.rcon "127.0.0.1" 27015 st.uuid
        else VConsole.execCon st.gameExe st.gameDir st.uuid
      some ({ st with console := some c }, c,
            (List.range (k + 2)).map (fun i => eligibilityCall st.process conns i))

/-- Result of `ValveExe.run`: either it returns, with the resulting
controller state and the list of commands sent through a console backend, or
it is still blocked inside the eligibility polling loop of `__enter__`. -/
inductive RunResult where
  | done (st : ValveExeState) (sent : List (VConsole × String × List String))
  | blocked
deriving DecidableEq

/-- Embedding of `ValveExe.run` (exe.py lines 103-118): if no live process
handle exists, return immediately (no command is sent, no error is raised);
otherwise forward the command through `self.console` if one is active, else
acquire one via `with self` (running `__enter__` against the connection
history `conns`, sending the command, then `__exit__` which resets
`self.console` to `None`). -/
def valveExe_run (st : ValveExeState) (conns : Nat → List PConn) (fuel : Nat)
    (command : String) (params : List String) : RunResult :=
  match st.process with
  | none => RunResult.done st []
  | some _ =>
      match st.console with
      | some c => RunResult.done st [(c, command, params)]
      | none =>
          match valveExe_enter st conns fuel with
          | none => RunResult.blocked
          | some (st1, c, _) =>
              RunResult.done { st1 with console := none } [(c, command, params)]

/-- Counterexample to claim C5 as stated.  With the live process handle
cleared, `run` returns normally: the state is unchanged and no command was
sent and no error was raised — a silent no-op, not a visible failure. -/
theorem C5_counterexample :
    valveExe_run
        ⟨"g.exe", "dir", none, none, "g.exe", "u", "log", "p", none, none,
         none, none⟩
        (fun _ => []) 0 "status" [] =
      RunResult.done
        ⟨"g.exe", "dir", none, none, "g.exe", "u", "log", "p", none, none,
         none, none⟩ [] := rfl

/-- Claim C5, amended.  For every console command issued after the external
process has become absent (`self.process` cleared), `ValveExe.run` returns
immediately without sending any command and without raising: the operation
is a silent no-op, not a visible failure. -/
theorem C5_run_silent_noop (st : ValveExeState) (conns : Nat → List PConn)
    (fuel : Nat) (command : String) (params : List String)
    (hp : st.process = none) :
    valveExe_run st conns fuel command params = RunResult.done st [] := by
  simp [valveExe_run, hp]

/-- Witness for the amended claim C5 at a concrete state with no process. -/
theorem C5_witness :
    valveExe_run
        ⟨"hl2.exe", "hl2", none, none, "hl2.exe", "u2", "log", "p", none,
         none, none, none⟩
        (fun _ => [⟨ConnStatus.listen⟩]) 3 "echo" ["hi"] =
      RunResult.done
        ⟨"hl2.exe", "hl2", none, none, "hl2.exe", "u2", "log", "p", none,
         none, none, none⟩ [] :=
  C5_run_silent_noop
    ⟨"hl2.exe", "hl2", none, none, "hl2.exe", "u2", "log", "p", none,
     none, none, none⟩
    (fun _ => [⟨ConnStatus.listen⟩]) 3 "echo" ["hi"] rfl

/-- The polling loop never exits while every poll returns Unknown. -/
lemma awaitLoop_all_none (trace : Nat → Option Bool)
    (h : ∀ j, trace j = none) :
    ∀ (fuel i : Nat), awaitLoop trace i fuel = none := by
  intro fuel
  induction fuel with
  | zero => intro i; rfl
  | succ fuel ih =>
      intro i
      simp only [awaitLoop, h i]
      exact ih (i + 1)

/-- Claim C9.  `__enter__` polls the eligibility check on a fixed interval
and never returns while the result is Unknown: with no live process handle
every call returns Unknown — the handle is never mutated during the
negotiation — so the caller stays blocked however many polls are made.
With a live handle every call returns a settled Eligible or NotEligible
result (Unknown is impossible), the loop exits at its first poll, one more
call decides the backend, and the injected (`ExecConsole`) backend is
chosen only on an observed settled NotEligible — never from an Unknown
result; the network backend is chosen iff the deciding call returns
Eligible. -/
theorem C9_enter_polling_settled (st : ValveExeState)
    (conns : Nat → List PConn) (fuel : Nat) :
    (st.process = none → valveExe_enter st conns fuel = none) ∧
    (∀ p, st.process = some p → 1 ≤ fuel →
      valveExe_enter st conns fuel =
        some ({ st with console := some (if eligibilityCall st.process conns 1 = some true
                  then VConsole.rcon "127.0.0.1" 27015 st.uuid
                  else VConsole.execCon st.gameExe st.gameDir st.uuid) },
              (if eligibilityCall st.process conns 1 = some true
               then VConsole.rcon "127.0.0.1" 27015 st.uuid
               else VConsole.execCon st.gameExe st.gameDir st.uuid),
              [eligibilityCall st.process conns 0,
               eligibilityCall st.process conns 1]) ∧
      eligibilityCall st.process conns 0 ≠ none ∧
      eligibilityCall st.process conns 1 ≠ none ∧
      ((if eligibilityCall st.process conns 1 = some true
        then VConsole.rcon "127.0.0.1" 27015 st.uuid
        else VConsole.execCon st.gameExe st.gameDir st.uuid) =
          VConsole.execCon st.gameExe st.gameDir st.uuid →
        eligibilityCall st.process conns 1 = some false) ∧
      ((if eligibilityCall st.process conns 1 = some true
        then VConsole.rcon "127.0.0.1" 27015 st.uuid
        else VConsole.execCon st.gameExe st.gameDir st.uuid) =
          VConsole.rcon "127.0.0.1" 27015 st.uuid ↔
        eligibilityCall st.process conns 1 = some true)) := by
  constructor
  · intro hp
    unfold valveExe_enter
    rw [awaitLoop_all_none (fun i => eligibilityCall st.process conns i)
      (fun j => by simp [eligibilityCall, hp]) fuel 0]
  · intro p hp hfuel
    have hne : ∀ i, eligibilityCall st.process conns i ≠ none := by
      intro i
      rw [hp]
      exact eligibilityCall_ne_none p conns i
    have hAw : awaitLoop (fun i => eligibilityCall st.process conns i) 0 fuel =
        some 0 := by
      cases fuel with
      | zero => omega
      | succ f =>
          cases he0 : eligibilityCall st.process conns 0 with
          | none => exact absurd he0 (hne 0)
          | some b => simp [awaitLoop, he0]
    refine ⟨?_, hne 0, hne 1, ?_, ?_⟩
    · unfold valveExe_enter
      rw [hAw]
      rfl
    · intro hex
      cases he1 : eligibilityCall st.process conns 1 with
      | none => exact absurd he1 (hne 1)
      | some b =>
          cases b with
          | true => simp [he1] at hex
          | false => rfl
    · constructor
      · intro hrc
        by_contra hne1
        simp only [if_neg hne1] at hrc
        exact VConsole.noConfusion hrc
      · intro he1
        simp [he1]

/-- Witness for C9: a state with no live handle stays blocked through four
polls; a live handle with `-usercon` whose connection list is empty at the
first call and holds a listening connection at the second call settles
immediately — the first poll observes NotEligible, the deciding call
observes Eligible and the network console is chosen, with every observed
poll settled. -/
theorem C9_witness :
    valveExe_enter
        ⟨"g.exe", "dir", none, none, "g.exe", "u", "log", "p", none, none,
         none, none⟩
        (fun i => if i = 0 then [] else [⟨ConnStatus.listen⟩]) 4 = none ∧
    valveExe_enter
        ⟨"g.exe", "dir", none, none, "g.exe", "u", "log", "p",
         some ⟨["g.exe", "-usercon"], []⟩, none, none, none⟩
        (fun i => if i = 0 then [] else [⟨ConnStatus.listen⟩]) 1 =
      some (⟨"g.exe", "dir", none, none, "g.exe", "u", "log", "p",
             some ⟨["g.exe", "-usercon"], []⟩,
             some (VConsole.rcon "127.0.0.1" 27015 "u"), none, none⟩,
            VConsole.rcon "127.0.0.1" 27015 "u",
            [some false, some true]) ∧
    (some false : Option Bool) ≠ none ∧
    (some true : Option Bool) ≠ none :=
  ⟨(C9_enter_polling_settled
      ⟨"g.exe", "dir", none, none, "g.exe", "u", "log", "p", none, none,
       none, none⟩
      (fun i => if i = 0 then [] else [⟨ConnStatus.listen⟩]) 4).1 rfl,
   ((C9_enter_polling_settled
      ⟨"g.exe", "dir", none, none, "g.exe", "u", "log", "p",
       some ⟨["g.exe", "-usercon"], []⟩, none, none, none⟩
      (fun i => if i = 0 then [] else [⟨ConnStatus.listen⟩]) 1).2
      ⟨["g.exe", "-usercon"], []⟩ rfl (by decide)).1,
   ((C9_enter_polling_settled
      ⟨"g.exe", "dir", none, none, "g.exe", "u", "log", "p",
       some ⟨["g.exe", "-usercon"], []⟩, none, none, none⟩
      (fun i => if i = 0 then [] else [⟨ConnStatus.listen⟩]) 1).2
      ⟨["g.exe", "-usercon"], []⟩ rfl (by decide)).2.1,
   ((C9_enter_polling_settled
      ⟨"g.exe", "dir", none, none, "g.exe", "u", "log", "p",
       some ⟨["g.exe", "-usercon"], []⟩, none, none, none⟩
      (fun i => if i = 0 then [] else [⟨ConnStatus.listen⟩]) 1).2
      ⟨["g.exe", "-usercon"], []⟩ rfl (by decide)).2.2.1⟩

/-- Truthiness of the optional Steam executable path (`if self.steamExe`):
a missing or empty string is falsy. -/
def optStrTruthy : Option String → Bool
  | some s => s ≠ ""
  | none => false

/-- Truthiness of the optional Steam AppID (`and self.appid`): a missing or
zero id is falsy. -/
def optNatTruthy : Option Nat → Bool
  | some n => n ≠ 0
  | none => false

/-- Result of `ValveExe.launch`: the final controller state, the parameter
lists of the processes spawned, the executable names passed to
`terminate_process`, and the commands sent through a console. -/
structure LaunchOutcome where
  st : ValveExeState
  spawned : List (List String)
  terminated : List String
  sent : List (VConsole × String × List String)
deriving DecidableEq

/-- The commands of an outcome, forgetting which backend carried them. -/
def sentCommands (o : LaunchOutcome) : List (String × List String) :=
  o.sent.map (fun x => x.2)

/-- Embedding of `ValveExe.launch` (exe.py lines 64-101).  If the game is
already running (`self.process` truthy), only `run("con_logfile",
self.logName)` is issued and the method returns.  Otherwise: with truthy
`steamExe` and `appid`, terminate any same-named process and start from the
Steam launch parameters; else record the hijack flag (`bool(self.process)`)
and start from `[gameExe, '-hijack']`; extend with the mod directory, the
log-redirection flags and — when `_check_rcon_eligible()` is truthy — the
rcon flags; append the params of the caller; spawn the detached process
(its command line is the parameter list, no connections yet) and store the
handle; finally block until the log file appears (no state change). -/
def valveExe_launch (st : ValveExeState) (params : List String)
    (conns : Nat → List PConn) (fuel : Nat) : Option LaunchOutcome :=
  match st.process with
  | some _ =>
      match valveExe_run st conns fuel "con_logfile" [st.logName] with
      | RunResult.done st' sent => some ⟨st', [], [], sent⟩
      | RunResult.blocked => none
  | none =>
      let steam := optStrTruthy st.steamExe && optNatTruthy st.appid
      let st1 := if steam then st else { st with hijacked := some st.process.isSome }
      let base := if steam
        then [st.steamExe.getD "", "-applaunch", toString (st.appid.getD 0)]
        else [st.gameExe, "-hijack"]
      let terminated := if steam then [st.exeName] else []
      let ps1 := base ++ ["-game", st.gameDir] ++
        ["+log", "0", "+sv_logflush", "1", "+con_logfile", st.logName]
      let ps2 := if check_rcon_eligible st1.process = some true
        then ps1 ++ ["-usercon", "+ip", "0.0.0.0", "+rcon_password", st.uuid]
        else ps1
      let ps3 := ps2 ++ params
      some ⟨{ st1 with process := some ⟨ps3, []⟩ }, [ps3], terminated, []⟩

/-- Claim C10.  For every `launch()` call made while an instance with the
expected executable name is already running (a live process handle is held),
no process is spawned and no process is terminated: the operation only
reissues the log-redirection command `con_logfile` with the generated log
name through a console backend, and the controller state is left
unchanged. -/
theorem C10_launch_reuse (st : ValveExeState) (params : List String)
    (conns : Nat → List PConn) (fuel : Nat) (outcome : LaunchOutcome)
    (hp : st.process.isSome = true)
    (h : valveExe_launch st params conns fuel = some outcome) :
    outcome.st = st ∧ outcome.spawned = [] ∧ outcome.terminated = [] ∧
    sentCommands outcome = [("con_logfile", [st.logName])] := by
  obtain ⟨p, hp'⟩ := Option.isSome_iff_exists.mp hp
  cases hcon : st.console with
  | some c =>
      simp only [valveExe_launch, valveExe_run, hp', hcon,
        Option.some.injEq] at h
      subst h
      exact ⟨rfl, rfl, rfl, rfl⟩
  | none =>
      cases hAw : awaitLoop (fun i => eligibilityCall (some p) conns i) 0 fuel with
      | none =>
          simp only [valveExe_launch, valveExe_run, valveExe_enter, hp', hcon,
            hAw] at h
          simp at h
      | some k =>
          simp only [valveExe_launch, valveExe_run, valveExe_enter, hp', hcon,
            hAw, Option.some.injEq] at h
          subst h
          refine ⟨?_, rfl, rfl, rfl⟩
          show ({ st with process := some p, console := none } : ValveExeState) = st
          rw [← hp', ← hcon]

/-- Witness for C10 at a concrete running instance with an active console:
launch spawns and terminates nothing, sends exactly the log-redirection
command, and leaves the state unchanged. -/
theorem C10_witness :
    (valveExe_launch
        ⟨"g.exe", "dir", none, none, "g.exe", "u", "valve-exe-u.log", "p",
         some ⟨["g.exe"], []⟩, some (VConsole.rcon "127.0.0.1" 27015 "u"),
         none, none⟩
        ["-novid"] (fun _ => []) 0 =
      some ⟨⟨"g.exe", "dir", none, none, "g.exe", "u", "valve-exe-u.log", "p",
             some ⟨["g.exe"], []⟩, some (VConsole.rcon "127.0.0.1" 27015 "u"),
             none, none⟩,
            [], [],
            [(VConsole.rcon "127.0.0.1" 27015 "u", "con_logfile",
              ["valve-exe-u.log"])]⟩) ∧
    (⟨⟨"g.exe", "dir", none, none, "g.exe", "u", "valve-exe-u.log", "p",
       some ⟨["g.exe"], []⟩, some (VConsole.rcon "127.0.0.1" 27015 "u"),
       none, none⟩,
      [], [],
      [(VConsole.rcon "127.0.0.1" 27015 "u", "con_logfile",
        ["valve-exe-u.log"])]⟩ : LaunchOutcome).st =
      ⟨"g.exe", "dir", none, none, "g.exe", "u", "valve-exe-u.log", "p",
       some ⟨["g.exe"], []⟩, some (VConsole.rcon "127.0.0.1" 27015 "u"),
       none, none⟩ ∧
    sentCommands
        ⟨⟨"g.exe", "dir", none, none, "g.exe", "u", "valve-exe-u.log", "p",
          some ⟨["g.exe"], []⟩, some (VConsole.rcon "127.0.0.1" 27015 "u"),
          none, none⟩,
         [], [],
         [(VConsole.rcon "127.0.0.1" 27015 "u", "con_logfile",
           ["valve-exe-u.log"])]⟩ =
      [("con_logfile", ["valve-exe-u.log"])] :=
  ⟨rfl,
   (C10_launch_reuse
      ⟨"g.exe", "dir", none, none, "g.exe", "u", "valve-exe-u.log", "p",
       some ⟨["g.exe"], []⟩, some (VConsole.rcon "127.0.0.1" 27015 "u"),
       none, none⟩
      ["-novid"] (fun _ => []) 0
      ⟨⟨"g.exe", "dir", none, none, "g.exe", "u", "valve-exe-u.log", "p",
        some ⟨["g.exe"], []⟩, some (VConsole.rcon "127.0.0.1" 27015 "u"),
        none, none⟩,
       [], [],
       [(VConsole.rcon "127.0.0.1" 27015 "u", "con_logfile",
         ["valve-exe-u.log"])]⟩
      rfl rfl).1,
   (C10_launch_reuse
      ⟨"g.exe", "dir", none, none, "g.exe", "u", "valve-exe-u.log", "p",
       some ⟨["g.exe"], []⟩, some (VConsole.rcon "127.0.0.1" 27015 "u"),
       none, none⟩
      ["-novid"] (fun _ => []) 0
      ⟨⟨"g.exe", "dir", none, none, "g.exe", "u", "valve-exe-u.log", "p",
        some ⟨["g.exe"], []⟩, some (VConsole.rcon "127.0.0.1" 27015 "u"),
        none, none⟩,
       [], [],
       [(VConsole.rcon "127.0.0.1" 27015 "u", "con_logfile",
         ["valve-exe-u.log"])]⟩
      rfl rfl).2.2.2⟩

end ValveEXE
